import Mathlib

/-!
Shallow embedding of the benchmark-interruptible-sleep crate.

Instants and durations are modelled as natural numbers (nanosecond ticks);
the fallible parts of the code (panics) are modelled with Except.  The two
sleeper implementations (channel.rs and condvar.rs), the spin barrier
(synchronization.rs) and the measurement loop (sleeper_thread.rs) are
translated function by function; the interleaved executions of the two
threads of a pair are modelled as explicit transition systems.
-/

namespace BenchSleep

/-- WakeupReason from lib.rs: either the sleep timed out or it was
interrupted, carrying the instant at which wake was called. -/
inductive WakeupReason where
  | Timeout : WakeupReason
  | Interrupted (wake_call_instant : Nat) : WakeupReason
deriving DecidableEq, Repr

/-- WakeupContext from lib.rs: the reason together with the derived
per-cycle metrics. -/
structure WakeupContext where
  reason : WakeupReason
  expected_duration : Nat
  actual_duration : Nat
  delay : Nat
deriving DecidableEq, Repr

/-- An observable operation on the shared NoDelayBarrier, recorded so that
frame conditions (which calls touch the barrier) can be stated. -/
inductive BarrierOp where
  | wait : BarrierOp
  | unblock : BarrierOp
deriving DecidableEq, Repr

/-- Result of Receiver.recv_timeout in std mpsc, as used by channel.rs:
a value was received, the deadline expired, or the sender is gone. -/
inductive RecvResult where
  | ok (t : Nat) : RecvResult
  | timeout : RecvResult
  | disconnected : RecvResult
deriving DecidableEq, Repr

/-- ChannelSleeper.sleep_interruptible from channel.rs, as a function of
the outcome of the single recv_timeout call it performs.  A received
instant yields Interrupted and one barrier wait (unblocking the waker);
a timeout yields Timeout and touches nothing; a disconnected channel
panics.  The list records the barrier operations the call performs. -/
def ChannelSleeper.sleep_interruptible (res : RecvResult) :
    Except String (WakeupReason × List BarrierOp) :=
  match res with
  | .ok instant => .ok (.Interrupted instant, [.wait])
  | .timeout => .ok (.Timeout, [])
  | .disconnected => .error "Channel disconnected"

/-- Constant SLEEP_WAS_INTERRUPTED from condvar.rs. -/
def SLEEP_WAS_INTERRUPTED : Bool := true

/-- Constant SLEEP_NORMAL from condvar.rs. -/
def SLEEP_NORMAL : Bool := false

/-- SleepWakeContext from condvar.rs: the mutex-guarded record shared by
CondvarSleeper and CondvarWaker. -/
structure SleepWakeContext where
  sleep_state : Bool
  wake_call_instant : Option Nat
deriving DecidableEq, Repr

/-- Default for SleepWakeContext from condvar.rs: not interrupted, no
stored instant. -/
def SleepWakeContext.default : SleepWakeContext :=
  { sleep_state := SLEEP_NORMAL, wake_call_instant := none }

/-- One pass of the loop in CondvarSleeper.sleep_interruptible from
condvar.rs, as a function of the wait_timeout result (timed_out) and the
guarded state observed on wake-up.  Returns ok (some ...) when the loop
breaks with a reason (giving the reason, the updated guarded state and the
barrier operations performed), ok none when the loop would continue, and
error on a panic. -/
def CondvarSleeper.loopBody (timed_out : Bool) (g : SleepWakeContext) :
    Except String (Option (WakeupReason × SleepWakeContext × List BarrierOp)) :=
  if timed_out then
    .ok (some (.Timeout, g, []))
  else if g.sleep_state = SLEEP_NORMAL then
    .error "We woke up too early"
  else if g.sleep_state = SLEEP_WAS_INTERRUPTED then
    match g.wake_call_instant with
    | some t =>
        .ok (some (.Interrupted t,
          { sleep_state := SLEEP_NORMAL, wake_call_instant := none }, [.wait]))
    | none => .error "should have been set by wake()"
  else
    .ok none

/-- CondvarWaker.wake from condvar.rs: under the lock it sets the
interrupted flag and stores the current instant, then (after notify_one
and unlock) waits on the barrier. -/
def CondvarWaker.wake (now : Nat) (_g : SleepWakeContext) :
    SleepWakeContext × List BarrierOp :=
  ({ sleep_state := SLEEP_WAS_INTERRUPTED, wake_call_instant := some now },
   [.wait])

/-- ChannelWaker.wake from channel.rs: sends the current instant into the
single-slot channel (the slot must be free, which the handshake protocol
guarantees), then waits on the barrier. -/
def ChannelWaker.wake (now : Nat) (_buf : Option Nat) :
    Option Nat × List BarrierOp :=
  (some now, [.wait])

/-! Cycle-level semantics.  A measurement cycle starts the sleep at an
absolute instant for a requested duration; the environment (the
controller thread) may issue at most one wake during the cycle, at an
absolute instant.  The deadline of the cycle is start + dur. -/

/-- One measurement cycle: the instant the sleep begins, the requested
duration, and the absolute instant of the controller wake for this cycle,
if any. -/
structure Cycle where
  start : Nat
  dur : Nat
  wake : Option Nat
deriving DecidableEq, Repr

/-- Semantics of recv_timeout on the single-slot sync_channel of
channel.rs: a timestamp already buffered is delivered immediately; else a
send at instant w is delivered when it happens by the deadline; a send
after the deadline lands in the buffer once the receive has timed out.
Returns the recv result and the buffer content after the cycle. -/
def recvTimeout (buf : Option Nat) (wake : Option Nat) (deadline : Nat) :
    RecvResult × Option Nat :=
  match buf with
  | some t => (.ok t, none)
  | none =>
    match wake with
    | some w => if w ≤ deadline then (.ok w, none) else (.timeout, some w)
    | none => (.timeout, none)

/-- One cycle of the channel implementation: the recv_timeout semantics
composed with ChannelSleeper.sleep_interruptible.  Returns the reason and
the channel buffer after the cycle.  The error arm is unreachable because
recvTimeout never reports a disconnect. -/
def channelCycle (buf : Option Nat) (c : Cycle) : WakeupReason × Option Nat :=
  let rb := recvTimeout buf c.wake (c.start + c.dur)
  match ChannelSleeper.sleep_interruptible rb.1 with
  | .ok (r, _) => (r, rb.2)
  | .error _ => (.Timeout, rb.2)

/-- One cycle of the condvar implementation, assuming no spurious
wake-ups: a wake by the deadline makes wait_timeout return without timing
out and with the mutation of CondvarWaker.wake visible; a wake after the
deadline lets the wait time out first and mutates the shared state
afterwards; with no wake the wait times out on the unchanged state.
Returns the reason and the guarded state after the cycle.  The fallback
arms are unreachable in these schedules. -/
def condvarCycle (g : SleepWakeContext) (c : Cycle) :
    WakeupReason × SleepWakeContext :=
  match c.wake with
  | some w =>
    if w ≤ c.start + c.dur then
      match CondvarSleeper.loopBody false (CondvarWaker.wake w g).1 with
      | .ok (some (r, g2, _)) => (r, g2)
      | _ => (.Timeout, g)
    else
      match CondvarSleeper.loopBody true g with
      | .ok (some (r, _, _)) => (r, (CondvarWaker.wake w g).1)
      | _ => (.Timeout, g)
  | none =>
    match CondvarSleeper.loopBody true g with
    | .ok (some (r, g2, _)) => (r, g2)
    | _ => (.Timeout, g)

/-- Reason sequence produced by the channel implementation over a list of
cycles, threading the channel buffer. -/
def channelRun (buf : Option Nat) : List Cycle → List WakeupReason
  | [] => []
  | c :: cs =>
    let rc := channelCycle buf c
    rc.1 :: channelRun rc.2 cs

/-- Reason sequence produced by the condvar implementation over a list of
cycles, threading the guarded state. -/
def condvarRun (g : SleepWakeContext) : List Cycle → List WakeupReason
  | [] => []
  | c :: cs =>
    let rc := condvarCycle g c
    rc.1 :: condvarRun rc.2 cs

/-- The reason a cycle should report, looking at that cycle alone:
Interrupted at the wake instant when the cycle has a wake by its
deadline, Timeout otherwise. -/
def idealResult (c : Cycle) : WakeupReason :=
  match c.wake with
  | some w => if w ≤ c.start + c.dur then .Interrupted w else .Timeout
  | none => .Timeout

/-- A cycle is in-window when its wake, if any, arrives by the deadline,
so that the wake is delivered during the sleep it aims at. -/
def inWindow (c : Cycle) : Bool :=
  match c.wake with
  | some w => w ≤ c.start + c.dur
  | none => true

/-! The NoDelayBarrier of synchronization.rs: state and an interleaving
model of wait() executed by exactly two threads. -/

/-- State of NoDelayBarrier from synchronization.rs: the arrival count of
the current round and the epoch counter. -/
structure NoDelayBarrier where
  arrived : Nat
  epoch : Nat
deriving DecidableEq, Repr

/-- NoDelayBarrier.new from synchronization.rs. -/
def NoDelayBarrier.new : NoDelayBarrier :=
  { arrived := 0, epoch := 0 }

/-- NoDelayBarrier.unblock from synchronization.rs: reset the arrival
count and bump the epoch, releasing any spinner of the current round. -/
def NoDelayBarrier.unblock (b : NoDelayBarrier) : NoDelayBarrier :=
  { arrived := 0, epoch := b.epoch + 1 }

/-- Program counter of one thread executing NoDelayBarrier.wait from
synchronization.rs.  start: about to load the epoch; arrive me: loaded
epoch me, about to fetch_add the arrival counter; rel1: was the second
arriver, about to store arrived := 0; rel2: about to fetch_add the epoch;
spin me: first arriver, spinning while the epoch still equals me; done:
wait has returned. -/
inductive WaitPc where
  | start : WaitPc
  | arrive (my_epoch : Nat) : WaitPc
  | rel1 : WaitPc
  | rel2 : WaitPc
  | spin (my_epoch : Nat) : WaitPc
  | done : WaitPc
deriving DecidableEq, Repr

/-- One atomic step of a thread inside NoDelayBarrier.wait, acting on the
shared arrived and epoch counters.  Returns the new counters and program
counter.  A finished thread stays put; a spinner re-reads the epoch and
leaves only once it changed. -/
def stepWait (arrived epoch : Nat) (pc : WaitPc) : Nat × Nat × WaitPc :=
  match pc with
  | .start => (arrived, epoch, .arrive epoch)
  | .arrive me =>
    if arrived + 1 = 2 then (arrived + 1, epoch, .rel1)
    else (arrived + 1, epoch, .spin me)
  | .rel1 => (0, epoch, .rel2)
  | .rel2 => (arrived, epoch + 1, .done)
  | .spin me => (arrived, epoch, if epoch = me then .spin me else .done)
  | .done => (arrived, epoch, .done)

/-- Two threads, A and B, each executing one NoDelayBarrier.wait call on
the same barrier. -/
structure BarrierSys where
  bar : NoDelayBarrier
  pcA : WaitPc
  pcB : WaitPc
deriving DecidableEq, Repr

/-- Interleaving scheduler for BarrierSys: true lets thread A take one
atomic step, false lets thread B. -/
def barrierStep (s : BarrierSys) (first : Bool) : BarrierSys :=
  if first then
    let r := stepWait s.bar.arrived s.bar.epoch s.pcA
    { bar := { arrived := r.1, epoch := r.2.1 }, pcA := r.2.2, pcB := s.pcB }
  else
    let r := stepWait s.bar.arrived s.bar.epoch s.pcB
    { bar := { arrived := r.1, epoch := r.2.1 }, pcA := s.pcA, pcB := r.2.2 }

/-- Reachability under an interleaving step function driven by a Boolean
scheduler choice at every step. -/
inductive StepsTo {σ : Type} (step : σ → Bool → σ) : σ → σ → Prop where
  | refl (s : σ) : StepsTo step s s
  | tail {s t : σ} (b : Bool) : StepsTo step s t → StepsTo step s (step t b)

/-- The states one round of the two-party barrier can be in, given that
the round started at epoch e0 with no arrivals, listed with the two
program counters in one of the two orders. -/
def waitShape (e0 arrived epoch : Nat) (p q : WaitPc) : Prop :=
  (arrived = 0 ∧ epoch = e0 ∧ p = .start ∧ q = .start) ∨
  (arrived = 0 ∧ epoch = e0 ∧ p = .arrive e0 ∧ q = .start) ∨
  (arrived = 0 ∧ epoch = e0 ∧ p = .arrive e0 ∧ q = .arrive e0) ∨
  (arrived = 1 ∧ epoch = e0 ∧ p = .spin e0 ∧ q = .start) ∨
  (arrived = 1 ∧ epoch = e0 ∧ p = .spin e0 ∧ q = .arrive e0) ∨
  (arrived = 2 ∧ epoch = e0 ∧ p = .spin e0 ∧ q = .rel1) ∨
  (arrived = 0 ∧ epoch = e0 ∧ p = .spin e0 ∧ q = .rel2) ∨
  (arrived = 0 ∧ epoch = e0 + 1 ∧ p = .spin e0 ∧ q = .done) ∨
  (arrived = 0 ∧ epoch = e0 + 1 ∧ p = .done ∧ q = .done)

/-- Invariant of one barrier round started at epoch e0: the system is in
one of the round shapes, in either orientation of the two threads. -/
def roundInv (e0 : Nat) (s : BarrierSys) : Prop :=
  waitShape e0 s.bar.arrived s.bar.epoch s.pcA s.pcB ∨
  waitShape e0 s.bar.arrived s.bar.epoch s.pcB s.pcA

theorem roundInv_step (e0 : Nat) (s : BarrierSys) (b : Bool)
    (h : roundInv e0 s) : roundInv e0 (barrierStep s b) := by
  obtain ⟨⟨a, e⟩, pA, pB⟩ := s
  rcases h with h | h <;>
    rcases h with ⟨h1, h2, h3, h4⟩ | ⟨h1, h2, h3, h4⟩ | ⟨h1, h2, h3, h4⟩ |
      ⟨h1, h2, h3, h4⟩ | ⟨h1, h2, h3, h4⟩ | ⟨h1, h2, h3, h4⟩ |
      ⟨h1, h2, h3, h4⟩ | ⟨h1, h2, h3, h4⟩ | ⟨h1, h2, h3, h4⟩ <;>
    cases b <;>
    simp_all [roundInv, waitShape, barrierStep, stepWait]

theorem roundInv_reach (e0 : Nat) (s : BarrierSys)
    (h : StepsTo barrierStep
      { bar := { arrived := 0, epoch := e0 }, pcA := .start, pcB := .start } s) :
    roundInv e0 s := by
  induction h with
  | refl => simp [roundInv, waitShape]
  | tail b _ ih => exact roundInv_step e0 _ b ih

/-! Interleaving model of one wake handshake: the waker thread executes
Waker.wake (send or flag-set, then barrier wait) while the sleeper
thread, woken by the delivery, acknowledges on the same barrier before
returning from sleep_interruptible. -/

/-- Program counter of the waker thread inside wake(): about to deliver
the timestamp (send over the channel, or flag-set plus notify under the
lock), or inside its NoDelayBarrier.wait call.  wake() has returned when
the barrier program counter is done. -/
inductive WakerPc where
  | send : WakerPc
  | bar (p : WaitPc) : WakerPc
deriving DecidableEq, Repr

/-- Program counter of the sleeper thread inside sleep_interruptible:
blocked waiting for the delivery, or inside the acknowledging
NoDelayBarrier.wait call.  sleep_interruptible returns the Interrupted
reason once the barrier program counter is done. -/
inductive SleeperPc where
  | recvWait : SleeperPc
  | bar (p : WaitPc) : SleeperPc
deriving DecidableEq, Repr

/-- Joint state of one wake handshake: the shared barrier and the two
program counters. -/
structure WakeSys where
  bar : NoDelayBarrier
  pcW : WakerPc
  pcS : SleeperPc
deriving DecidableEq, Repr

/-- Interleaving scheduler for the wake handshake: true lets the waker
take one atomic step, false the sleeper.  The sleeper can leave its
blocking receive only after the waker has delivered the timestamp. -/
def wakeStep (s : WakeSys) (wakerTurn : Bool) : WakeSys :=
  if wakerTurn then
    match s.pcW with
    | .send => { s with pcW := .bar .start }
    | .bar p =>
      let r := stepWait s.bar.arrived s.bar.epoch p
      { bar := { arrived := r.1, epoch := r.2.1 }, pcW := .bar r.2.2, pcS := s.pcS }
  else
    match s.pcS with
    | .recvWait => if s.pcW = .send then s else { s with pcS := .bar .start }
    | .bar p =>
      let r := stepWait s.bar.arrived s.bar.epoch p
      { bar := { arrived := r.1, epoch := r.2.1 }, pcW := s.pcW, pcS := .bar r.2.2 }

/-- Invariant of one wake handshake started at epoch e0: either the
sleeper is still blocked (and the waker at most spinning as first
arriver), or both are inside the barrier in one of the round shapes. -/
def wakeInv (e0 : Nat) (s : WakeSys) : Prop :=
  (s.bar.arrived = 0 ∧ s.bar.epoch = e0 ∧ s.pcW = .send ∧ s.pcS = .recvWait) ∨
  (s.bar.arrived = 0 ∧ s.bar.epoch = e0 ∧ s.pcW = .bar .start ∧ s.pcS = .recvWait) ∨
  (s.bar.arrived = 0 ∧ s.bar.epoch = e0 ∧ s.pcW = .bar (.arrive e0) ∧ s.pcS = .recvWait) ∨
  (s.bar.arrived = 1 ∧ s.bar.epoch = e0 ∧ s.pcW = .bar (.spin e0) ∧ s.pcS = .recvWait) ∨
  (∃ p q, s.pcW = .bar p ∧ s.pcS = .bar q ∧
    (waitShape e0 s.bar.arrived s.bar.epoch p q ∨
     waitShape e0 s.bar.arrived s.bar.epoch q p))

theorem wakeInv_step (e0 : Nat) (s : WakeSys) (b : Bool)
    (h : wakeInv e0 s) : wakeInv e0 (wakeStep s b) := by
  obtain ⟨⟨a, e⟩, pW, pS⟩ := s
  rcases h with ⟨h1, h2, h3, h4⟩ | ⟨h1, h2, h3, h4⟩ | ⟨h1, h2, h3, h4⟩ |
      ⟨h1, h2, h3, h4⟩ | ⟨p, q, h3, h4, h⟩
  case _ =>
    cases b <;> simp_all [wakeInv, wakeStep, stepWait]
  case _ =>
    cases b <;> simp_all [wakeInv, wakeStep, stepWait, waitShape]
  case _ =>
    cases b <;> simp_all [wakeInv, wakeStep, stepWait, waitShape]
  case _ =>
    cases b <;> simp_all [wakeInv, wakeStep, stepWait, waitShape]
  case _ =>
    rcases h with h | h <;>
      rcases h with ⟨h1, h2, hp, hq⟩ | ⟨h1, h2, hp, hq⟩ | ⟨h1, h2, hp, hq⟩ |
        ⟨h1, h2, hp, hq⟩ | ⟨h1, h2, hp, hq⟩ | ⟨h1, h2, hp, hq⟩ |
        ⟨h1, h2, hp, hq⟩ | ⟨h1, h2, hp, hq⟩ | ⟨h1, h2, hp, hq⟩ <;>
      cases b <;>
      simp_all [wakeInv, wakeStep, stepWait, waitShape]

theorem wakeInv_reach (e0 : Nat) (s : WakeSys)
    (h : StepsTo wakeStep
      { bar := { arrived := 0, epoch := e0 }, pcW := .send, pcS := .recvWait } s) :
    wakeInv e0 s := by
  induction h with
  | refl => simp [wakeInv]
  | tail b _ ih => exact wakeInv_step e0 _ b ih

/-! Sequential model of the controller thread issuing wake() calls: the
call blocks its thread, so a new call can only start once the previous
one has returned. -/

/-- State of the controller thread around its wake() calls: how many
calls were started, how many have returned, and whether a call is
currently executing (blocked until the sleeper acknowledges). -/
structure WakerThreadState where
  started : Nat
  returned : Nat
  busy : Bool
deriving DecidableEq, Repr

/-- One event on the controller thread: true starts a wake() call, which
is possible only when the thread is not already inside one (the call
blocks); false completes the pending call (the barrier handshake
finished). -/
def wakerSeqStep (s : WakerThreadState) (call : Bool) : WakerThreadState :=
  if call then
    if s.busy then s
    else { started := s.started + 1, returned := s.returned, busy := true }
  else
    if s.busy then { started := s.started, returned := s.returned + 1, busy := false }
    else s

theorem wakerSeqStep_inv (t : WakerThreadState) (b : Bool)
    (h : t.started = t.returned + (if t.busy then 1 else 0)) :
    (wakerSeqStep t b).started =
      (wakerSeqStep t b).returned + (if (wakerSeqStep t b).busy then 1 else 0) := by
  obtain ⟨st, r, bu⟩ := t
  cases b <;> cases bu <;> simp_all [wakerSeqStep]

theorem wakerSeq_inv (s : WakerThreadState)
    (h : StepsTo wakerSeqStep { started := 0, returned := 0, busy := false } s) :
    s.started = s.returned + (if s.busy then 1 else 0) := by
  induction h with
  | refl => simp
  | tail b _ ih => exact wakerSeqStep_inv _ b ih

/-! The measurement loop of sleeper_thread.rs. -/

/-- Constant SHOULD_EXIT from sleeper_thread.rs. -/
def SHOULD_EXIT : Bool := true

/-- Constant SHOULD_CONTINUE from sleeper_thread.rs. -/
def SHOULD_CONTINUE : Bool := false

/-- The derived-metrics computation of SleeperThread.thread_fn from
sleeper_thread.rs: from the reason, the sleep-start instant, the default
sleep duration and the measured wall-clock duration of the sleep call, it
derives the expected duration (wake instant minus begin when
interrupted, the default duration otherwise) and the delay (actual minus
expected).  The two check macros of the source are modelled as fatal
errors: a wake instant before begin, or an expected duration above the
actual one, aborts. -/
def computeWakeupContext (wakeup_reason : WakeupReason)
    (sleepBegin default_sleep_duration actual : Nat) :
    Except String WakeupContext :=
  match wakeup_reason with
  | .Interrupted w =>
    if sleepBegin ≤ w then
      let expected := w - sleepBegin
      if expected ≤ actual then
        .ok { reason := wakeup_reason, expected_duration := expected,
              actual_duration := actual, delay := actual - expected }
      else
        .error "check failed: actual_expected_sleep_duration <= actual_sleep_duration_with_overhead"
    else
      .error "check failed: wake_call_instant >= begin"
  | .Timeout =>
    if default_sleep_duration ≤ actual then
      .ok { reason := .Timeout, expected_duration := default_sleep_duration,
            actual_duration := actual, delay := actual - default_sleep_duration }
    else
      .error "check failed: actual_expected_sleep_duration <= actual_sleep_duration_with_overhead"

/-- The externally visible actions of one iteration of the loop in
SleeperThread.thread_fn, in program order. -/
inductive ThreadAction where
  | barrierWait : ThreadAction
  | checkExit : ThreadAction
  | sleep : ThreadAction
  | computeMetrics : ThreadAction
  | send : ThreadAction
deriving DecidableEq, Repr

/-- How one iteration of the loop in SleeperThread.thread_fn ends. -/
inductive IterOutcome where
  | exitedAtCycleStart : IterOutcome
  | exitedAfterSleep : IterOutcome
  | panicked (msg : String) : IterOutcome
  | sent (ctx : WakeupContext) : IterOutcome
deriving DecidableEq, Repr

/-- One iteration of the loop in SleeperThread.thread_fn from
sleeper_thread.rs: wait on the cycle barrier, check the exit flag (exit
without sending if set), sleep, re-check the exit flag (exit without
sending if set), compute the derived metrics, send the WakeupContext.
exit1 and exit2 are the values the two exit-flag loads observe;
wakeup_reason, sleepBegin and actual describe the sleep call that the
iteration performed.  Returns how the iteration ends together with the
list of actions it performed, in order. -/
def threadIteration (exit1 exit2 : Bool) (wakeup_reason : WakeupReason)
    (sleepBegin default_sleep_duration actual : Nat) :
    IterOutcome × List ThreadAction :=
  let acts0 : List ThreadAction := [.barrierWait, .checkExit]
  if exit1 = SHOULD_EXIT then
    (.exitedAtCycleStart, acts0)
  else
    let acts1 := acts0 ++ [.sleep, .checkExit]
    if exit2 = SHOULD_EXIT then
      (.exitedAfterSleep, acts1)
    else
      match computeWakeupContext wakeup_reason sleepBegin default_sleep_duration actual with
      | .error m => (.panicked m, acts1 ++ [.computeMetrics])
      | .ok ctx => (.sent ctx, acts1 ++ [.computeMetrics, .send])

/-- Per-iteration input of the loop in SleeperThread.thread_fn: the two
exit-flag values observed and the data of the sleep call. -/
structure IterInput where
  exit1 : Bool
  exit2 : Bool
  wakeup_reason : WakeupReason
  sleepBegin : Nat
  actual : Nat
deriving DecidableEq, Repr

/-- The loop of SleeperThread.thread_fn over a list of per-iteration
inputs: it delivers one WakeupContext per completed iteration and stops
at the first iteration that observes the exit flag or panics. -/
def threadLoop (default_sleep_duration : Nat) : List IterInput → List WakeupContext
  | [] => []
  | i :: rest =>
    match threadIteration i.exit1 i.exit2 i.wakeup_reason i.sleepBegin
        default_sleep_duration i.actual with
    | (.sent ctx, _) => ctx :: threadLoop default_sleep_duration rest
    | _ => []

/-- Whether the condvar loop body would run another round of the loop. -/
def isLoopContinue
    (r : Except String (Option (WakeupReason × SleepWakeContext × List BarrierOp))) :
    Bool :=
  match r with
  | .ok none => true
  | _ => false

/-! Helper lemmas about single cycles and runs from a clean pair state. -/

theorem channelCycle_clean (c : Cycle) (h : inWindow c = true) :
    channelCycle none c = (idealResult c, none) := by
  obtain ⟨s, d, w⟩ := c
  rcases w with _ | w
  · simp [channelCycle, recvTimeout, ChannelSleeper.sleep_interruptible, idealResult]
  · simp only [inWindow, decide_eq_true_eq] at h
    simp [channelCycle, recvTimeout, ChannelSleeper.sleep_interruptible, idealResult, h]

theorem condvarCycle_clean (c : Cycle) (h : inWindow c = true) :
    condvarCycle SleepWakeContext.default c = (idealResult c, SleepWakeContext.default) := by
  obtain ⟨s, d, w⟩ := c
  rcases w with _ | w
  · simp [condvarCycle, CondvarSleeper.loopBody, SleepWakeContext.default, SLEEP_NORMAL,
      idealResult]
  · simp only [inWindow, decide_eq_true_eq] at h
    simp [condvarCycle, CondvarSleeper.loopBody, CondvarWaker.wake, SleepWakeContext.default,
      SLEEP_NORMAL, SLEEP_WAS_INTERRUPTED, idealResult, h]

theorem channelRun_ideal (cs : List Cycle) (h : ∀ c ∈ cs, inWindow c = true) :
    channelRun none cs = cs.map idealResult := by
  induction cs with
  | nil => rfl
  | cons c cs ih =>
    have hc := h c (by simp)
    have hcs : ∀ x ∈ cs, inWindow x = true := fun x hx => h x (by simp [hx])
    simp [channelRun, channelCycle_clean c hc, ih hcs]

theorem condvarRun_ideal (cs : List Cycle) (h : ∀ c ∈ cs, inWindow c = true) :
    condvarRun SleepWakeContext.default cs = cs.map idealResult := by
  induction cs with
  | nil => rfl
  | cons c cs ih =>
    have hc := h c (by simp)
    have hcs : ∀ x ∈ cs, inWindow x = true := fun x hx => h x (by simp [hx])
    simp [condvarRun, condvarCycle_clean c hc, ih hcs]

/-! The claims. -/

/-- Claim C2: for every duration and both implementations, starting from
the clean pair state created by the factory, sleep_interruptible returns
Timeout when no wake is delivered by the deadline (no wake at all, or a
wake arriving only after the deadline), and returns Interrupted carrying
the wake timestamp when the paired waker delivers the wake by the
deadline. -/
theorem C2_sleep_interruptible_outcomes (c : Cycle) :
    (c.wake = none →
      channelCycle none c = (.Timeout, none) ∧
      condvarCycle SleepWakeContext.default c = (.Timeout, SleepWakeContext.default)) ∧
    (∀ w, c.wake = some w → w ≤ c.start + c.dur →
      (channelCycle none c).1 = .Interrupted w ∧
      (condvarCycle SleepWakeContext.default c).1 = .Interrupted w) ∧
    (∀ w, c.wake = some w → ¬ w ≤ c.start + c.dur →
      (channelCycle none c).1 = .Timeout ∧
      (condvarCycle SleepWakeContext.default c).1 = .Timeout) := by
  obtain ⟨s, d, w⟩ := c
  refine ⟨?_, ?_, ?_⟩
  · rintro rfl
    exact ⟨channelCycle_clean ⟨s, d, none⟩ rfl, condvarCycle_clean ⟨s, d, none⟩ rfl⟩
  · rintro w' rfl hle
    have hw : inWindow ⟨s, d, some w'⟩ = true := by
      simpa [inWindow] using hle
    simp [channelCycle_clean _ hw, condvarCycle_clean _ hw, idealResult, hle]
  · rintro w' rfl hgt
    constructor
    · simp [channelCycle, recvTimeout, ChannelSleeper.sleep_interruptible, hgt]
    · simp [condvarCycle, CondvarSleeper.loopBody, hgt]

/-- Witness for C2 at a concrete in-window cycle and a concrete cycle
with no wake. -/
theorem C2_sleep_interruptible_outcomes_witness :
    (channelCycle none ⟨0, 10, some 3⟩).1 = .Interrupted 3 ∧
    (condvarCycle SleepWakeContext.default ⟨0, 10, some 3⟩).1 = .Interrupted 3 ∧
    channelCycle none ⟨0, 10, none⟩ = (.Timeout, none) := by
  refine ⟨?_, ?_, ?_⟩
  · exact ((C2_sleep_interruptible_outcomes ⟨0, 10, some 3⟩).2.1 3 rfl (by decide)).1
  · exact ((C2_sleep_interruptible_outcomes ⟨0, 10, some 3⟩).2.1 3 rfl (by decide)).2
  · exact ((C2_sleep_interruptible_outcomes ⟨0, 10, none⟩).1 rfl).1

/-- Counterexample for claim C3 as stated: over the cycle sequence in
which the single wake lands only after the deadline of its cycle, the two
implementations produce different reason sequences.  The channel buffers
the late timestamp and reports it as Interrupted in the next cycle, while
the condvar implementation times out in both cycles because the notify
of the late wake was consumed while nobody was waiting. -/
theorem C3_counterexample :
    channelRun none [⟨0, 10, some 15⟩, ⟨20, 10, none⟩] =
      [.Timeout, .Interrupted 15] ∧
    condvarRun SleepWakeContext.default [⟨0, 10, some 15⟩, ⟨20, 10, none⟩] =
      [.Timeout, .Timeout] ∧
    decide (([WakeupReason.Timeout, .Interrupted 15] : List WakeupReason) =
      [WakeupReason.Timeout, .Timeout]) = false := by
  decide

/-- Claim C3, amended: the queue-based and the condition-variable-based
implementations are behaviorally equivalent for every sequence of sleep
and wake calls in which each wake is delivered by the deadline of the
cycle it interrupts (the discipline the handshake protocol enforces);
with a wake racing past its deadline the two implementations diverge. -/
theorem C3_equiv_inWindow (cs : List Cycle) (h : ∀ c ∈ cs, inWindow c = true) :
    channelRun none cs = condvarRun SleepWakeContext.default cs := by
  rw [channelRun_ideal cs h, condvarRun_ideal cs h]

/-- Witness for C3 on a concrete in-window sequence. -/
theorem C3_equiv_inWindow_witness :
    channelRun none [⟨0, 10, some 3⟩, ⟨20, 10, none⟩, ⟨40, 10, some 45⟩] =
      condvarRun SleepWakeContext.default [⟨0, 10, some 3⟩, ⟨20, 10, none⟩, ⟨40, 10, some 45⟩] :=
  C3_equiv_inWindow [⟨0, 10, some 3⟩, ⟨20, 10, none⟩, ⟨40, 10, some 45⟩] (by decide)

/-- Counterexample for claim C4 as stated: in the channel implementation
a cycle that ends in Timeout (its wake landed only after the deadline)
leaves the late timestamp buffered, and the following sleep cycle, which
has no wake of its own, reports that stale wake as Interrupted. -/
theorem C4_counterexample :
    (channelCycle none ⟨0, 10, some 15⟩).1 = .Timeout ∧
    (channelCycle none ⟨0, 10, some 15⟩).2 = some 15 ∧
    (channelCycle (channelCycle none ⟨0, 10, some 15⟩).2 ⟨20, 10, none⟩).1 =
      .Interrupted 15 ∧
    decide ((WakeupReason.Interrupted 15 : WakeupReason) = .Timeout) = false := by
  decide

/-- Claim C4, amended: when every wake of the sequence is delivered by
the deadline of its own cycle, no sleep cycle ever observes a stale wake
from a prior cycle: starting from the clean pair state, every cycle of
both implementations reports exactly the reason determined by its own
event (Interrupted at the wake instant of its own wake, Timeout when it
has none). -/
theorem C4_no_stale_wake_inWindow (cs : List Cycle)
    (h : ∀ c ∈ cs, inWindow c = true) :
    channelRun none cs = cs.map idealResult ∧
    condvarRun SleepWakeContext.default cs = cs.map idealResult :=
  ⟨channelRun_ideal cs h, condvarRun_ideal cs h⟩

/-- Witness for C4 on a concrete in-window sequence containing both a
timeout cycle and an interrupted cycle. -/
theorem C4_no_stale_wake_inWindow_witness :
    channelRun none [⟨0, 10, none⟩, ⟨20, 10, some 25⟩, ⟨40, 10, none⟩] =
      [.Timeout, .Interrupted 25, .Timeout] ∧
    condvarRun SleepWakeContext.default [⟨0, 10, none⟩, ⟨20, 10, some 25⟩, ⟨40, 10, none⟩] =
      [.Timeout, .Interrupted 25, .Timeout] := by
  have h := C4_no_stale_wake_inWindow
    [⟨0, 10, none⟩, ⟨20, 10, some 25⟩, ⟨40, 10, none⟩] (by decide)
  exact ⟨by rw [h.1]; decide, by rw [h.2]; decide⟩

/-- Claim C5: a delivered WakeupContext has expected_duration equal to
the wake instant minus the sleep-start instant when the reason is
Interrupted and equal to the requested default duration otherwise; its
delay satisfies delay = actual - expected exactly (expected never
exceeds actual on the ok path); and the negative cases (a wake instant
before the sleep start, or an expected duration above the actual one)
are fatal: the computation aborts instead of delivering a context. -/
theorem C5_metrics (wakeup_reason : WakeupReason) (sleepBegin dflt actual : Nat) :
    (∀ ctx, computeWakeupContext wakeup_reason sleepBegin dflt actual = .ok ctx →
      ctx.reason = wakeup_reason ∧
      ctx.actual_duration = actual ∧
      (∀ w, wakeup_reason = .Interrupted w →
        sleepBegin ≤ w ∧ ctx.expected_duration = w - sleepBegin) ∧
      (wakeup_reason = .Timeout → ctx.expected_duration = dflt) ∧
      ctx.expected_duration ≤ ctx.actual_duration ∧
      ctx.delay = actual - ctx.expected_duration ∧
      ctx.delay + ctx.expected_duration = actual) ∧
    (∀ w, wakeup_reason = .Interrupted w → w < sleepBegin →
      computeWakeupContext wakeup_reason sleepBegin dflt actual =
        .error "check failed: wake_call_instant >= begin") ∧
    (∀ w, wakeup_reason = .Interrupted w → sleepBegin ≤ w → actual < w - sleepBegin →
      computeWakeupContext wakeup_reason sleepBegin dflt actual =
        .error "check failed: actual_expected_sleep_duration <= actual_sleep_duration_with_overhead") ∧
    (wakeup_reason = .Timeout → actual < dflt →
      computeWakeupContext wakeup_reason sleepBegin dflt actual =
        .error "check failed: actual_expected_sleep_duration <= actual_sleep_duration_with_overhead") := by
  refine ⟨?_, ?_, ?_, ?_⟩
  · intro ctx hctx
    rcases wakeup_reason with _ | w
    · simp only [computeWakeupContext] at hctx
      split at hctx
      · rename_i hda
        injection hctx with h
        subst h
        refine ⟨rfl, rfl, by simp, fun _ => rfl, hda, rfl, ?_⟩
        show actual - dflt + dflt = actual
        omega
      · exact absurd hctx (by simp)
    · simp only [computeWakeupContext] at hctx
      split at hctx
      · rename_i hbw
        split at hctx
        · rename_i hea
          injection hctx with h
          subst h
          refine ⟨rfl, rfl, ?_, by simp, hea, rfl, ?_⟩
          · intro w' hw'
            injection hw' with hw'
            subst hw'
            exact ⟨hbw, rfl⟩
          · show actual - (w - sleepBegin) + (w - sleepBegin) = actual
            omega
        · exact absurd hctx (by simp)
      · exact absurd hctx (by simp)
  · rintro w rfl hlt
    simp [computeWakeupContext, Nat.not_le.mpr hlt]
  · rintro w rfl hle hlt
    simp [computeWakeupContext, hle, Nat.not_le.mpr hlt]
  · rintro rfl hlt
    simp [computeWakeupContext, Nat.not_le.mpr hlt]

/-- Witness for C5 at a concrete interrupted cycle: begin 10, wake 13,
actual 20; and at a concrete fatal input (wake 3 before begin 10). -/
theorem C5_metrics_witness :
    (computeWakeupContext (.Interrupted 13) 10 50 20 =
      .ok { reason := .Interrupted 13, expected_duration := 3,
            actual_duration := 20, delay := 17 }) ∧
    ({ reason := .Interrupted 13, expected_duration := 3,
       actual_duration := 20, delay := 17 : WakeupContext }.delay +
      { reason := .Interrupted 13, expected_duration := 3,
        actual_duration := 20, delay := 17 : WakeupContext }.expected_duration = 20) ∧
    computeWakeupContext (.Interrupted 3) 10 50 20 =
      .error "check failed: wake_call_instant >= begin" := by
  refine ⟨rfl, ?_, ?_⟩
  · exact ((C5_metrics (.Interrupted 13) 10 50 20).1 _ rfl).2.2.2.2.2.2
  · exact (C5_metrics (.Interrupted 3) 10 50 20).2.1 3 rfl (by decide)

/-- Claim C6: one iteration of the SleeperThread loop performs, in this
order: wait on the cycle barrier, check the exit flag (exiting at once,
with nothing sent, when set), sleep interruptibly, re-check the exit flag
(exiting at once, with nothing sent, when set), compute the derived
metrics, deliver exactly one WakeupContext; and the loop then repeats
with the remaining iterations. -/
theorem C6_loop_iteration (exit1 exit2 : Bool) (wakeup_reason : WakeupReason)
    (sleepBegin dflt actual : Nat) :
    (exit1 = SHOULD_EXIT →
      threadIteration exit1 exit2 wakeup_reason sleepBegin dflt actual =
        (.exitedAtCycleStart, [.barrierWait, .checkExit])) ∧
    (exit1 = SHOULD_CONTINUE → exit2 = SHOULD_EXIT →
      threadIteration exit1 exit2 wakeup_reason sleepBegin dflt actual =
        (.exitedAfterSleep, [.barrierWait, .checkExit, .sleep, .checkExit])) ∧
    (∀ ctx, exit1 = SHOULD_CONTINUE → exit2 = SHOULD_CONTINUE →
      computeWakeupContext wakeup_reason sleepBegin dflt actual = .ok ctx →
      threadIteration exit1 exit2 wakeup_reason sleepBegin dflt actual =
        (.sent ctx,
         [.barrierWait, .checkExit, .sleep, .checkExit, .computeMetrics, .send])) ∧
    (∀ (i : IterInput) (rest : List IterInput) ctx,
      threadIteration i.exit1 i.exit2 i.wakeup_reason i.sleepBegin dflt i.actual =
        (.sent ctx,
         [.barrierWait, .checkExit, .sleep, .checkExit, .computeMetrics, .send]) →
      threadLoop dflt (i :: rest) = ctx :: threadLoop dflt rest) ∧
    (∀ (i : IterInput) (rest : List IterInput), i.exit1 = SHOULD_EXIT →
      threadLoop dflt (i :: rest) = []) := by
  refine ⟨?_, ?_, ?_, ?_, ?_⟩
  · rintro rfl
    simp [threadIteration, SHOULD_EXIT]
  · rintro rfl rfl
    simp [threadIteration, SHOULD_EXIT, SHOULD_CONTINUE]
  · rintro ctx rfl rfl hok
    simp [threadIteration, SHOULD_EXIT, SHOULD_CONTINUE, hok]
  · intro i rest ctx hiter
    simp [threadLoop, hiter]
  · intro i rest hexit
    simp [threadLoop, threadIteration, hexit, SHOULD_EXIT]

/-- Witness for C6 at concrete inputs: a full send iteration, an
exit-at-cycle-start iteration, and the loop behavior on both. -/
theorem C6_loop_iteration_witness :
    threadIteration false false .Timeout 0 10 12 =
      (.sent { reason := .Timeout, expected_duration := 10,
               actual_duration := 12, delay := 2 },
       [.barrierWait, .checkExit, .sleep, .checkExit, .computeMetrics, .send]) ∧
    threadIteration true false .Timeout 0 10 12 =
      (.exitedAtCycleStart, [.barrierWait, .checkExit]) ∧
    threadLoop 10 [{ exit1 := true, exit2 := false, wakeup_reason := .Timeout,
                     sleepBegin := 0, actual := 12 }] = [] := by
  refine ⟨?_, ?_, ?_⟩
  · exact (C6_loop_iteration false false .Timeout 0 10 12).2.2.1 _ rfl rfl rfl
  · exact (C6_loop_iteration true false .Timeout 0 10 12).1 rfl
  · exact (C6_loop_iteration true false .Timeout 0 10 12).2.2.2.2 _ [] rfl

/-- Claim C8: a transport disconnection makes the channel implementation
abort instead of returning a reason; a non-timeout wake-up observed while
the interrupted flag is not set makes the condvar implementation abort;
and the condvar loop never runs a second round, so a fault is never
retried (every pass either returns a reason or aborts). -/
theorem C8_fatal_faults :
    ChannelSleeper.sleep_interruptible .disconnected = .error "Channel disconnected" ∧
    (∀ inst, CondvarSleeper.loopBody false
        { sleep_state := SLEEP_NORMAL, wake_call_instant := inst } =
      .error "We woke up too early") ∧
    (∀ (timed_out : Bool) (g : SleepWakeContext),
      isLoopContinue (CondvarSleeper.loopBody timed_out g) = false) := by
  refine ⟨rfl, fun inst => rfl, ?_⟩
  intro timed_out g
  obtain ⟨st, inst⟩ := g
  cases timed_out <;> cases st <;> cases inst <;>
    simp [CondvarSleeper.loopBody, isLoopContinue, SLEEP_NORMAL, SLEEP_WAS_INTERRUPTED]

/-- Claim C9: when sleep_interruptible returns Timeout it performs no
operation on the shared barrier (the recorded barrier-operation list is
empty in both implementations) and leaves pending wake state unchanged:
the condvar guarded state (in particular a set interrupted flag with its
stored timestamp) is returned untouched, and the channel buffer after a
cycle that times out without a wake of its own is the buffer it started
with. -/
theorem C9_timeout_frame (g : SleepWakeContext) :
    ChannelSleeper.sleep_interruptible .timeout = .ok (.Timeout, []) ∧
    CondvarSleeper.loopBody true g = .ok (some (.Timeout, g, [])) ∧
    (∀ (buf : Option Nat) (c : Cycle), (channelCycle buf c).1 = .Timeout →
      c.wake = none → (channelCycle buf c).2 = buf) := by
  refine ⟨rfl, rfl, ?_⟩
  intro buf c hto hw
  obtain ⟨s, d, w⟩ := c
  cases hw
  rcases buf with _ | t
  · rfl
  · exact absurd hto (by
      simp [channelCycle, recvTimeout, ChannelSleeper.sleep_interruptible])

/-- Witness for C9 at a concrete guarded state with the interrupted flag
set and a stored timestamp, and at a concrete empty-buffer cycle. -/
theorem C9_timeout_frame_witness :
    CondvarSleeper.loopBody true
        { sleep_state := SLEEP_WAS_INTERRUPTED, wake_call_instant := some 7 } =
      .ok (some (.Timeout,
        { sleep_state := SLEEP_WAS_INTERRUPTED, wake_call_instant := some 7 }, [])) ∧
    (channelCycle none ⟨0, 5, none⟩).2 = none := by
  constructor
  · exact (C9_timeout_frame
      { sleep_state := SLEEP_WAS_INTERRUPTED, wake_call_instant := some 7 }).2.1
  · exact (C9_timeout_frame SleepWakeContext.default).2.2 none ⟨0, 5, none⟩ (by decide) rfl

/-- Claim C10: in the condvar implementation the timeout outcome wins the
tie-break: a wait that timed out yields Timeout whatever the guarded
state says, even with the interrupted flag set and a timestamp stored;
the reason on a timed-out wait does not depend on the guarded state at
all (the flag is only inspected on wake-ups that did not time out), and a
cycle whose wake lands only after the deadline yields Timeout although it
sets the flag and stores the timestamp. -/
theorem C10_timeout_precedence (g g2 : SleepWakeContext) :
    CondvarSleeper.loopBody true g = .ok (some (.Timeout, g, [])) ∧
    (CondvarSleeper.loopBody true g).map (Option.map fun x => x.1) =
      (CondvarSleeper.loopBody true g2).map (Option.map fun x => x.1) ∧
    (∀ w, (condvarCycle g { start := 0, dur := 0, wake := none }).1 = .Timeout ∧
      (¬ w ≤ 0 → (condvarCycle g { start := 0, dur := 0, wake := some w }).1 = .Timeout)) ∧
    (∀ (c : Cycle) (w : Nat), c.wake = some w → ¬ w ≤ c.start + c.dur →
      (condvarCycle g c).1 = .Timeout ∧
      (condvarCycle g c).2 =
        { sleep_state := SLEEP_WAS_INTERRUPTED, wake_call_instant := some w }) := by
  refine ⟨rfl, rfl, ?_, ?_⟩
  · intro w
    constructor
    · simp [condvarCycle, CondvarSleeper.loopBody]
    · intro hgt
      simp [condvarCycle, CondvarSleeper.loopBody, hgt]
  · intro c w hw hgt
    obtain ⟨s, d, w0⟩ := c
    cases hw
    constructor
    · simp [condvarCycle, CondvarSleeper.loopBody, hgt]
    · simp [condvarCycle, CondvarSleeper.loopBody, CondvarWaker.wake, hgt]

/-- Witness for C10 at the concrete flag-set state and a concrete late
wake. -/
theorem C10_timeout_precedence_witness :
    CondvarSleeper.loopBody true
        { sleep_state := SLEEP_WAS_INTERRUPTED, wake_call_instant := some 4 } =
      .ok (some (.Timeout,
        { sleep_state := SLEEP_WAS_INTERRUPTED, wake_call_instant := some 4 }, [])) ∧
    (condvarCycle SleepWakeContext.default ⟨0, 10, some 15⟩).1 = .Timeout := by
  constructor
  · exact (C10_timeout_precedence
      { sleep_state := SLEEP_WAS_INTERRUPTED, wake_call_instant := some 4 }
      SleepWakeContext.default).1
  · exact ((C10_timeout_precedence SleepWakeContext.default SleepWakeContext.default).2.2.2
      ⟨0, 10, some 15⟩ 15 rfl (by decide)).1

theorem stepWait_epoch_mono (arrived epoch : Nat) (pc : WaitPc) :
    epoch ≤ (stepWait arrived epoch pc).2.1 := by
  cases pc <;> simp only [stepWait] <;> (try split) <;> simp

theorem barrierStep_epoch_mono (s : BarrierSys) (b : Bool) :
    s.bar.epoch ≤ (barrierStep s b).bar.epoch := by
  cases b <;> simp only [barrierStep, if_true, if_false, Bool.false_eq_true] <;>
    exact stepWait_epoch_mono _ _ _

theorem roundInv_done (e0 : Nat) (s : BarrierSys) (h : roundInv e0 s)
    (hA : s.pcA = .done) (hB : s.pcB = .done) :
    s.bar.arrived = 0 ∧ s.bar.epoch = e0 + 1 := by
  rcases h with h | h <;>
    rcases h with ⟨h1, h2, h3, h4⟩ | ⟨h1, h2, h3, h4⟩ | ⟨h1, h2, h3, h4⟩ |
      ⟨h1, h2, h3, h4⟩ | ⟨h1, h2, h3, h4⟩ | ⟨h1, h2, h3, h4⟩ |
      ⟨h1, h2, h3, h4⟩ | ⟨h1, h2, h3, h4⟩ | ⟨h1, h2, h3, h4⟩ <;>
    simp_all

/-- Claim C7: in a wait round of the two-party barrier, the caller
increments the arrival counter; an arriver that is not the second spins
as long as the epoch still holds its loaded value and leaves as soon as
it changed; the second arriver resets the arrival counter to zero and
then advances the epoch by one, releasing the spinner; a completed round
started at epoch e0 always ends with the counter reset and the epoch at
e0 + 1 (so the epoch strictly increased), the epoch never decreases at
any step, and unblock also resets the counter and advances the epoch by
one. -/
theorem C7_barrier_wait_round :
    (∀ (arrived epoch me : Nat), stepWait arrived epoch (.arrive me) =
      (arrived + 1, epoch, if arrived + 1 = 2 then .rel1 else .spin me)) ∧
    (∀ (arrived epoch me : Nat), epoch = me →
      stepWait arrived epoch (.spin me) = (arrived, epoch, .spin me)) ∧
    (∀ (arrived epoch me : Nat), ¬ epoch = me →
      stepWait arrived epoch (.spin me) = (arrived, epoch, .done)) ∧
    (∀ (arrived epoch : Nat), stepWait arrived epoch .rel1 = (0, epoch, .rel2)) ∧
    (∀ (arrived epoch : Nat), stepWait arrived epoch .rel2 = (arrived, epoch + 1, .done)) ∧
    (∀ (s : BarrierSys) (b : Bool), s.bar.epoch ≤ (barrierStep s b).bar.epoch) ∧
    (∀ (e0 : Nat) (s : BarrierSys),
      StepsTo barrierStep
        { bar := { arrived := 0, epoch := e0 }, pcA := .start, pcB := .start } s →
      s.pcA = .done → s.pcB = .done →
      s.bar.arrived = 0 ∧ s.bar.epoch = e0 + 1) ∧
    (∀ b : NoDelayBarrier, b.unblock = { arrived := 0, epoch := b.epoch + 1 }) := by
  refine ⟨?_, ?_, ?_, ?_, ?_, barrierStep_epoch_mono, ?_, fun b => rfl⟩
  · intro arrived epoch me
    rcases eq_or_ne arrived 1 with h | h <;> simp [stepWait, h]
  · intro arrived epoch me h
    simp [stepWait, h]
  · intro arrived epoch me h
    simp [stepWait, h]
  · intro arrived epoch
    rfl
  · intro arrived epoch
    rfl
  · intro e0 s hreach hA hB
    exact roundInv_done e0 s (roundInv_reach e0 s hreach) hA hB

/-- Witness for C7: a concrete complete round of the barrier, scheduled
so that thread A arrives first and spins while thread B arrives second,
resets the counter, advances the epoch and releases A. -/
theorem C7_barrier_wait_round_witness :
    ({ bar := { arrived := 0, epoch := 1 }, pcA := .done, pcB := .done } :
      BarrierSys).bar.arrived = 0 ∧
    ({ bar := { arrived := 0, epoch := 1 }, pcA := .done, pcB := .done } :
      BarrierSys).bar.epoch = 0 + 1 := by
  have t0 : StepsTo barrierStep
      { bar := { arrived := 0, epoch := 0 }, pcA := .start, pcB := .start }
      { bar := { arrived := 0, epoch := 0 }, pcA := .start, pcB := .start } :=
    .refl _
  have t1 : StepsTo barrierStep
      { bar := { arrived := 0, epoch := 0 }, pcA := .start, pcB := .start }
      { bar := { arrived := 0, epoch := 0 }, pcA := .arrive 0, pcB := .start } :=
    .tail true t0
  have t2 : StepsTo barrierStep
      { bar := { arrived := 0, epoch := 0 }, pcA := .start, pcB := .start }
      { bar := { arrived := 1, epoch := 0 }, pcA := .spin 0, pcB := .start } :=
    .tail true t1
  have t3 : StepsTo barrierStep
      { bar := { arrived := 0, epoch := 0 }, pcA := .start, pcB := .start }
      { bar := { arrived := 1, epoch := 0 }, pcA := .spin 0, pcB := .arrive 0 } :=
    .tail false t2
  have t4 : StepsTo barrierStep
      { bar := { arrived := 0, epoch := 0 }, pcA := .start, pcB := .start }
      { bar := { arrived := 2, epoch := 0 }, pcA := .spin 0, pcB := .rel1 } :=
    .tail false t3
  have t5 : StepsTo barrierStep
      { bar := { arrived := 0, epoch := 0 }, pcA := .start, pcB := .start }
      { bar := { arrived := 0, epoch := 0 }, pcA := .spin 0, pcB := .rel2 } :=
    .tail false t4
  have t6 : StepsTo barrierStep
      { bar := { arrived := 0, epoch := 0 }, pcA := .start, pcB := .start }
      { bar := { arrived := 0, epoch := 1 }, pcA := .spin 0, pcB := .done } :=
    .tail false t5
  have t7 : StepsTo barrierStep
      { bar := { arrived := 0, epoch := 0 }, pcA := .start, pcB := .start }
      { bar := { arrived := 0, epoch := 1 }, pcA := .done, pcB := .done } :=
    .tail true t6
  exact C7_barrier_wait_round.2.2.2.2.2.2.1 0 _ t7 rfl rfl

/-- Claim C1: a wake() call does not return before the paired sleeper has
acknowledged the interruption on the shared barrier: in every reachable
state of the interleaved handshake in which the waker has returned from
its barrier wait, the sleeper has already passed its own barrier arrival
(it is spinning after arriving, or has completed its wait).  Moreover, on
the sequential controller thread at most one wake is ever in flight: the
number of started wake calls never exceeds the number of returned ones by
more than one. -/
theorem C1_wake_blocks_until_ack :
    (∀ (e0 : Nat) (s : WakeSys),
      StepsTo wakeStep
        { bar := { arrived := 0, epoch := e0 }, pcW := .send, pcS := .recvWait } s →
      s.pcW = .bar .done →
      s.pcS = .bar (.spin e0) ∨ s.pcS = .bar .done) ∧
    (∀ s : WakerThreadState,
      StepsTo wakerSeqStep { started := 0, returned := 0, busy := false } s →
      s.started ≤ s.returned + 1) := by
  constructor
  · intro e0 s hreach hdone
    have h := wakeInv_reach e0 s hreach
    rcases h with ⟨h1, h2, h3, h4⟩ | ⟨h1, h2, h3, h4⟩ | ⟨h1, h2, h3, h4⟩ |
        ⟨h1, h2, h3, h4⟩ | ⟨p, q, h3, h4, h⟩
    · simp_all
    · simp_all
    · simp_all
    · simp_all
    · rcases h with h | h <;>
        rcases h with ⟨h1, h2, hp, hq⟩ | ⟨h1, h2, hp, hq⟩ | ⟨h1, h2, hp, hq⟩ |
          ⟨h1, h2, hp, hq⟩ | ⟨h1, h2, hp, hq⟩ | ⟨h1, h2, hp, hq⟩ |
          ⟨h1, h2, hp, hq⟩ | ⟨h1, h2, hp, hq⟩ | ⟨h1, h2, hp, hq⟩ <;>
        simp_all
  · intro s h
    have hinv := wakerSeq_inv s h
    cases hbusy : s.busy <;> simp [hbusy] at hinv <;> omega

/-- Witness for C1: a concrete full handshake in which the waker
delivers, enters the barrier first and spins, while the sleeper receives,
arrives second, releases the waker and completes; at its end the waker is
done and the sleeper is done.  Also the controller state right after
starting its first wake call. -/
theorem C1_wake_blocks_until_ack_witness :
    (({ bar := { arrived := 0, epoch := 1 }, pcW := .bar .done, pcS := .bar .done } :
        WakeSys).pcS = .bar (.spin 0) ∨
     ({ bar := { arrived := 0, epoch := 1 }, pcW := .bar .done, pcS := .bar .done } :
        WakeSys).pcS = .bar .done) ∧
    ({ started := 1, returned := 0, busy := true } : WakerThreadState).started ≤
      ({ started := 1, returned := 0, busy := true } : WakerThreadState).returned + 1 := by
  constructor
  · have u0 : StepsTo wakeStep
        { bar := { arrived := 0, epoch := 0 }, pcW := .send, pcS := .recvWait }
        { bar := { arrived := 0, epoch := 0 }, pcW := .send, pcS := .recvWait } :=
      .refl _
    have u1 : StepsTo wakeStep
        { bar := { arrived := 0, epoch := 0 }, pcW := .send, pcS := .recvWait }
        { bar := { arrived := 0, epoch := 0 }, pcW := .bar .start, pcS := .recvWait } :=
      .tail true u0
    have u2 : StepsTo wakeStep
        { bar := { arrived := 0, epoch := 0 }, pcW := .send, pcS := .recvWait }
        { bar := { arrived := 0, epoch := 0 }, pcW := .bar (.arrive 0), pcS := .recvWait } :=
      .tail true u1
    have u3 : StepsTo wakeStep
        { bar := { arrived := 0, epoch := 0 }, pcW := .send, pcS := .recvWait }
        { bar := { arrived := 1, epoch := 0 }, pcW := .bar (.spin 0), pcS := .recvWait } :=
      .tail true u2
    have u4 : StepsTo wakeStep
        { bar := { arrived := 0, epoch := 0 }, pcW := .send, pcS := .recvWait }
        { bar := { arrived := 1, epoch := 0 }, pcW := .bar (.spin 0), pcS := .bar .start } :=
      .tail false u3
    have u5 : StepsTo wakeStep
        { bar := { arrived := 0, epoch := 0 }, pcW := .send, pcS := .recvWait }
        { bar := { arrived := 1, epoch := 0 }, pcW := .bar (.spin 0),
          pcS := .bar (.arrive 0) } :=
      .tail false u4
    have u6 : StepsTo wakeStep
        { bar := { arrived := 0, epoch := 0 }, pcW := .send, pcS := .recvWait }
        { bar := { arrived := 2, epoch := 0 }, pcW := .bar (.spin 0), pcS := .bar .rel1 } :=
      .tail false u5
    have u7 : StepsTo wakeStep
        { bar := { arrived := 0, epoch := 0 }, pcW := .send, pcS := .recvWait }
        { bar := { arrived := 0, epoch := 0 }, pcW := .bar (.spin 0), pcS := .bar .rel2 } :=
      .tail false u6
    have u8 : StepsTo wakeStep
        { bar := { arrived := 0, epoch := 0 }, pcW := .send, pcS := .recvWait }
        { bar := { arrived := 0, epoch := 1 }, pcW := .bar (.spin 0), pcS := .bar .done } :=
      .tail false u7
    have u9 : StepsTo wakeStep
        { bar := { arrived := 0, epoch := 0 }, pcW := .send, pcS := .recvWait }
        { bar := { arrived := 0, epoch := 1 }, pcW := .bar .done, pcS := .bar .done } :=
      .tail true u8
    exact C1_wake_blocks_until_ack.1 0 _ u9 rfl
  · have v1 : StepsTo wakerSeqStep { started := 0, returned := 0, busy := false }
        { started := 1, returned := 0, busy := true } :=
      .tail true (.refl _)
    exact C1_wake_blocks_until_ack.2 _ v1

end BenchSleep
